import Mathlib

/-!
Shallow embedding of the crop-health scoring, normalization and trend-projection
logic of the Climate-Crop repository.

Numeric values are modelled over `ℚ` (exact rational arithmetic standing in for
the Python floats); absent values are `Option.none`; the Python `None` returned
on error paths is `Option.none` at the result type.

Sources embedded:
* `Most_Definitly_Not_My_Crop.py`: `analyze_rice_crop_health` (Policy A),
  `predict_future_temperatures` (linear-regression trend projection).
* `No_Name.py`: `fetch_nasa_power_data` (NASA-POWER normalizer),
  `calculate_rice_crop_health_score` with its inner `calculate_parameter_score`
  (Policy B).
-/

/-- Policy A, `temp_score` local of `analyze_rice_crop_health`:
`max(0, 100 - abs(temperature - 25) * 3)`. -/
def temp_score (temperature : ℚ) : ℚ :=
  max 0 (100 - |temperature - 25| * 3)

/-- Policy A, `rain_score` local of `analyze_rice_crop_health`:
`max(0, 100 - abs(rainfall - 125) * 0.8)`. -/
def rain_score (rainfall : ℚ) : ℚ :=
  max 0 (100 - |rainfall - 125| * 0.8)

/-- Policy A combined score: `temp_score * 0.6 + rain_score * 0.4`
(`analyze_rice_crop_health` in `Most_Definitly_Not_My_Crop.py`). -/
def analyze_rice_crop_health (temperature rainfall : ℚ) : ℚ :=
  temp_score temperature * 0.6 + rain_score rainfall * 0.4

/-- One entry of the `conditions` dict of `calculate_rice_crop_health_score`:
`{'min': _, 'max': _, 'ideal': _}`. -/
structure ParamConditions where
  min : ℚ
  max : ℚ
  ideal : ℚ
deriving DecidableEq

/-- `conditions['temperature'] = {'min': 20, 'max': 35, 'ideal': 25}`. -/
def conditions_temperature : ParamConditions := ⟨20, 35, 25⟩

/-- `conditions['humidity'] = {'min': 60, 'max': 80, 'ideal': 70}`. -/
def conditions_humidity : ParamConditions := ⟨60, 80, 70⟩

/-- `conditions['precipitation'] = {'min': 100, 'max': 200, 'ideal': 150}`. -/
def conditions_precipitation : ParamConditions := ⟨100, 200, 150⟩

/-- `conditions['solar_radiation'] = {'min': 4, 'max': 6, 'ideal': 5}`. -/
def conditions_solar_radiation : ParamConditions := ⟨4, 6, 5⟩

/-- Policy B per-parameter score, `calculate_parameter_score` in `No_Name.py`:
`None → 0`; outside `[min,max] → max(0, 100 - |value-ideal|*5)`; inside
`→ max(0, 100*(1 - (|value-ideal|/max_distance)^2))` with
`max_distance = max(|min-ideal|, |max-ideal|)`. -/
def calculate_parameter_score (value : Option ℚ) (pc : ParamConditions) : ℚ :=
  match value with
  | none => 0
  | some v =>
    if v < pc.min ∨ v > pc.max then
      max 0 (100 - |v - pc.ideal| * 5)
    else
      let distance_from_ideal := |v - pc.ideal|
      let max_distance := max (|pc.min - pc.ideal|) (|pc.max - pc.ideal|)
      max 0 (100 * (1 - (distance_from_ideal / max_distance) ^ 2))

/-- One row of the normalized NASA-POWER dataframe: the dict appended to
`processed_data` in `fetch_nasa_power_data` (`date` plus the four parameter
values, each possibly `None`). -/
structure RiceRecord where
  date : ℤ
  temperature : Option ℚ
  humidity : Option ℚ
  precipitation : Option ℚ
  solar_radiation : Option ℚ
deriving DecidableEq

/-- Policy B combined score, `calculate_rice_crop_health_score` in `No_Name.py`:
weighted sum `0.35*temperature + 0.3*precipitation + 0.2*humidity +
0.15*solar_radiation` of the per-parameter scores. The Python body cannot raise
on a row carrying the four keys, so the `except` branch is not modelled. -/
def calculate_rice_crop_health_score (row : RiceRecord) : ℚ :=
  let s_temperature := calculate_parameter_score row.temperature conditions_temperature
  let s_humidity := calculate_parameter_score row.humidity conditions_humidity
  let s_precipitation := calculate_parameter_score row.precipitation conditions_precipitation
  let s_solar := calculate_parameter_score row.solar_radiation conditions_solar_radiation
  s_temperature * 0.35 + s_precipitation * 0.3 + s_humidity * 0.2 + s_solar * 0.15

/-- The per-date value dict of a shape-(a) NASA-POWER payload: each of the four
requested parameters, read with `values.get(key, None)`, so possibly absent. -/
structure RawValues where
  T2M : Option ℚ
  RH2M : Option ℚ
  PRECTOTCORR : Option ℚ
  ALLSKY_SFC_SW_DWN : Option ℚ
deriving DecidableEq

/-- The record built for one date inside the loop of `fetch_nasa_power_data`
(dates are modelled already parsed, as day numbers, since `datetime.strptime`
succeeds on the well-formed `YYYYMMDD` keys modelled here). -/
def toRecord (p : ℤ × RawValues) : RiceRecord :=
  { date := p.1
    temperature := p.2.T2M
    humidity := p.2.RH2M
    precipitation := p.2.PRECTOTCORR
    solar_radiation := p.2.ALLSKY_SFC_SW_DWN }

/-- The row-completeness test applied by `df.dropna()`: a row survives exactly
when none of its four parameter values is `None`. -/
def recordComplete (r : RiceRecord) : Bool :=
  r.temperature.isSome && r.humidity.isSome && r.precipitation.isSome &&
    r.solar_radiation.isSome

/-- Normalization core of `fetch_nasa_power_data` in `No_Name.py`: build one
record per date key, drop the rows with missing values (`df.dropna()`), and
return `None` (here `Option.none`, the EmptySeries error outcome) when no row
survives. The HTTP fetch and JSON-structure validation upstream of this loop
are external collaborators, out of scope per the spec. -/
def fetch_nasa_power_data (payload : List (ℤ × RawValues)) : Option (List RiceRecord) :=
  let processed_data := payload.map toRecord
  let df := processed_data.filter recordComplete
  if df.isEmpty then none else some df

/-- One row of the weather dataframe consumed by `predict_future_temperatures`
(`date` as a day number, `avg_temperature` already derived upstream). -/
structure WeatherRow where
  date : ℤ
  avg_temperature : ℚ
deriving DecidableEq

/-- One row of the returned `future_df`. -/
structure FutureRow where
  date : ℤ
  predicted_avg_temperature : ℚ
deriving DecidableEq

/-- `df['date'].min()` on a nonempty column (0 as out-of-domain default). -/
def dateMinList : List ℤ → ℤ
  | [] => 0
  | x :: xs => xs.foldl min x

/-- `df['date'].max()` on a nonempty column (0 as out-of-domain default). -/
def dateMaxList : List ℤ → ℤ
  | [] => 0
  | x :: xs => xs.foldl max x

/-- Mean of the first coordinates of the regression points. -/
def xbar (pts : List (ℚ × ℚ)) : ℚ :=
  (pts.map Prod.fst).sum / pts.length

/-- Mean of the second coordinates of the regression points. -/
def ybar (pts : List (ℚ × ℚ)) : ℚ :=
  (pts.map Prod.snd).sum / pts.length

/-- Centered second moment of the x coordinates. -/
def sxx (pts : List (ℚ × ℚ)) : ℚ :=
  (pts.map (fun p => (p.1 - xbar pts) ^ 2)).sum

/-- Centered cross moment of the regression points. -/
def sxy (pts : List (ℚ × ℚ)) : ℚ :=
  (pts.map (fun p => (p.1 - xbar pts) * (p.2 - ybar pts))).sum

/-- Slope of `sklearn.linear_model.LinearRegression().fit(X, y)` on one
feature: the ordinary-least-squares slope `sxy / sxx`. -/
def olsSlope (pts : List (ℚ × ℚ)) : ℚ :=
  sxy pts / sxx pts

/-- Intercept of the fitted line: `ybar - slope * xbar`. -/
def olsIntercept (pts : List (ℚ × ℚ)) : ℚ :=
  ybar pts - olsSlope pts * xbar pts

/-- The regression sample of `predict_future_temperatures`:
`df['days'] = (df['date'] - df['date'].min()).dt.days` paired with
`df['avg_temperature']`. -/
def trendPoints (df : List WeatherRow) : List (ℚ × ℚ) :=
  let dmin := dateMinList (df.map (fun r => r.date))
  df.map (fun r => (((r.date - dmin : ℤ) : ℚ), r.avg_temperature))

/-- `predict_future_temperatures` in `Most_Definitly_Not_My_Crop.py`: fit the
least-squares line over (day-offset, avg-temperature), then emit, for
`i = 1..30`, the date `df['date'].max() + i` paired with the model value at day
offset `days.max() + i`. -/
def predict_future_temperatures (df : List WeatherRow) : List FutureRow :=
  let dmin := dateMinList (df.map (fun r => r.date))
  let dmax := dateMaxList (df.map (fun r => r.date))
  let slope := olsSlope (trendPoints df)
  let intercept := olsIntercept (trendPoints df)
  (List.range 30).map (fun i =>
    { date := dmax + ((i + 1 : ℕ) : ℤ)
      predicted_avg_temperature := slope * (((dmax - dmin : ℤ) : ℚ) + ((i + 1 : ℕ) : ℚ)) + intercept })

theorem temp_score_bounds (t : ℚ) : 0 ≤ temp_score t ∧ temp_score t ≤ 100 := by
  unfold temp_score
  constructor
  · exact le_max_left 0 _
  · apply max_le (by norm_num)
    nlinarith [abs_nonneg (t - 25)]

theorem rain_score_bounds (r : ℚ) : 0 ≤ rain_score r ∧ rain_score r ≤ 100 := by
  unfold rain_score
  constructor
  · exact le_max_left 0 _
  · apply max_le (by norm_num)
    nlinarith [abs_nonneg (r - 125)]

theorem calculate_parameter_score_bounds (value : Option ℚ) (pc : ParamConditions) :
    0 ≤ calculate_parameter_score value pc ∧ calculate_parameter_score value pc ≤ 100 := by
  cases value with
  | none => simp [calculate_parameter_score]
  | some v =>
    simp only [calculate_parameter_score]
    split
    · refine ⟨le_max_left 0 _, max_le (by norm_num) ?_⟩
      nlinarith [abs_nonneg (v - pc.ideal)]
    · refine ⟨le_max_left 0 _, max_le (by norm_num) ?_⟩
      nlinarith [sq_nonneg (|v - pc.ideal| / max (|pc.min - pc.ideal|) (|pc.max - pc.ideal|))]

theorem calculate_rice_crop_health_score_bounds (row : RiceRecord) :
    0 ≤ calculate_rice_crop_health_score row ∧ calculate_rice_crop_health_score row ≤ 100 := by
  unfold calculate_rice_crop_health_score
  obtain ⟨h1a, h1b⟩ := calculate_parameter_score_bounds row.temperature conditions_temperature
  obtain ⟨h2a, h2b⟩ := calculate_parameter_score_bounds row.humidity conditions_humidity
  obtain ⟨h3a, h3b⟩ := calculate_parameter_score_bounds row.precipitation conditions_precipitation
  obtain ⟨h4a, h4b⟩ := calculate_parameter_score_bounds row.solar_radiation conditions_solar_radiation
  constructor <;> nlinarith

/-- C1: for all finite inputs, both policies return a score in `[0,100]`:
Policy A's `analyze_rice_crop_health(temperature, rainfall)` and Policy B's
`calculate_rice_crop_health_score(row)` with all four parameter values present. -/
theorem score_bounded_both_policies :
    (∀ temperature rainfall : ℚ,
      0 ≤ analyze_rice_crop_health temperature rainfall ∧
      analyze_rice_crop_health temperature rainfall ≤ 100) ∧
    (∀ t h p s : ℚ,
      0 ≤ calculate_rice_crop_health_score ⟨0, some t, some h, some p, some s⟩ ∧
      calculate_rice_crop_health_score ⟨0, some t, some h, some p, some s⟩ ≤ 100) := by
  constructor
  · intro temperature rainfall
    unfold analyze_rice_crop_health
    obtain ⟨ha, hb⟩ := temp_score_bounds temperature
    obtain ⟨hc, hd⟩ := rain_score_bounds rainfall
    constructor <;> nlinarith
  · intro t h p s
    exact calculate_rice_crop_health_score_bounds ⟨0, some t, some h, some p, some s⟩

/-- C3: at the ideal values both policies score exactly 100: Policy A at
`temperature=25, rainfall=125` has `temp_score=100`, `rain_score=100` and
combined `100`; Policy B at `temperature=25, humidity=70, precipitation=150,
solar_radiation=5` has every per-parameter score `100` and combined `100`. -/
theorem known_value_checks_both_policies :
    temp_score 25 = 100 ∧ rain_score 125 = 100 ∧
    analyze_rice_crop_health 25 125 = 100 ∧
    calculate_parameter_score (some 25) conditions_temperature = 100 ∧
    calculate_parameter_score (some 70) conditions_humidity = 100 ∧
    calculate_parameter_score (some 150) conditions_precipitation = 100 ∧
    calculate_parameter_score (some 5) conditions_solar_radiation = 100 ∧
    calculate_rice_crop_health_score ⟨0, some 25, some 70, some 150, some 5⟩ = 100 := by
  refine ⟨?_, ?_, ?_, ?_, ?_, ?_, ?_, ?_⟩ <;>
    norm_num [temp_score, rain_score, analyze_rice_crop_health,
      calculate_rice_crop_health_score, calculate_parameter_score, conditions_temperature,
      conditions_humidity, conditions_precipitation, conditions_solar_radiation]

/-- C9: Policy B's per-parameter score is not monotone in distance from the
ideal across the band boundary: temperature `35` (inside `[20,35]`, distance 10
from the ideal 25) scores `0`, while temperature `36` (outside the band,
distance 11) scores `45`, a strictly higher score at a strictly larger
distance. -/
theorem parameter_score_band_boundary_jump :
    |(35 : ℚ) - conditions_temperature.ideal| < |(36 : ℚ) - conditions_temperature.ideal| ∧
    calculate_parameter_score (some 35) conditions_temperature = 0 ∧
    calculate_parameter_score (some 36) conditions_temperature = 45 ∧
    calculate_parameter_score (some 35) conditions_temperature <
      calculate_parameter_score (some 36) conditions_temperature := by
  have h35 : calculate_parameter_score (some 35) conditions_temperature = 0 := by
    norm_num [calculate_parameter_score, conditions_temperature]
  have h36 : calculate_parameter_score (some 36) conditions_temperature = 45 := by
    norm_num [calculate_parameter_score, conditions_temperature]
  refine ⟨by norm_num [conditions_temperature], h35, h36, by rw [h35, h36]; norm_num⟩

theorem calculate_parameter_score_inside_eq (pc : ParamConditions) (v : ℚ)
    (h1 : pc.min ≤ v) (h2 : v ≤ pc.max) (hmi : pc.min ≤ pc.ideal) (him : pc.ideal ≤ pc.max) :
    calculate_parameter_score (some v) pc =
      100 * (1 - (|v - pc.ideal| /
        max (|pc.min - pc.ideal|) (|pc.max - pc.ideal|)) ^ 2) := by
  have hM : (0 : ℚ) ≤ max (|pc.min - pc.ideal|) (|pc.max - pc.ideal|) :=
    le_trans (abs_nonneg _) (le_max_left _ _)
  have hd : (0 : ℚ) ≤ |v - pc.ideal| := abs_nonneg _
  have hdM : |v - pc.ideal| ≤ max (|pc.min - pc.ideal|) (|pc.max - pc.ideal|) := by
    rcases le_total pc.ideal v with hc | hc
    · rw [abs_of_nonneg (by linarith)]
      refine le_trans ?_ (le_max_right _ _)
      rw [abs_of_nonneg (by linarith)]
      linarith
    · rw [abs_of_nonpos (by linarith)]
      refine le_trans ?_ (le_max_left _ _)
      rw [abs_of_nonpos (by linarith)]
      linarith
  have hpos : (0 : ℚ) ≤ 100 * (1 - (|v - pc.ideal| /
      max (|pc.min - pc.ideal|) (|pc.max - pc.ideal|)) ^ 2) := by
    rcases eq_or_lt_of_le hM with hM0 | hM0
    · rw [← hM0, div_zero]
      norm_num
    · have hq1 : |v - pc.ideal| / max (|pc.min - pc.ideal|) (|pc.max - pc.ideal|) ≤ 1 :=
        (div_le_one hM0).2 hdM
      have hq0 : (0 : ℚ) ≤ |v - pc.ideal| / max (|pc.min - pc.ideal|) (|pc.max - pc.ideal|) :=
        div_nonneg hd (le_of_lt hM0)
      nlinarith
  simp only [calculate_parameter_score]
  rw [if_neg (by simp only [not_or, not_lt]; exact ⟨h1, h2⟩)]
  exact max_eq_right hpos

theorem parameter_score_strict_antitone_core (pc : ParamConditions)
    (hmi : pc.min ≤ pc.ideal) (him : pc.ideal ≤ pc.max) (hlt : pc.min < pc.max)
    (v1 v2 : ℚ) (h1a : pc.min ≤ v1) (h1b : v1 ≤ pc.max)
    (h2a : pc.min ≤ v2) (h2b : v2 ≤ pc.max)
    (hcloser : |v1 - pc.ideal| < |v2 - pc.ideal|) :
    calculate_parameter_score (some v2) pc < calculate_parameter_score (some v1) pc := by
  rw [calculate_parameter_score_inside_eq pc v1 h1a h1b hmi him,
      calculate_parameter_score_inside_eq pc v2 h2a h2b hmi him]
  have hMpos : (0 : ℚ) < max (|pc.min - pc.ideal|) (|pc.max - pc.ideal|) := by
    rcases lt_or_le pc.min pc.ideal with hc | hc
    · refine lt_max_iff.2 (Or.inl ?_)
      rw [abs_of_nonpos (by linarith)]
      linarith
    · refine lt_max_iff.2 (Or.inr ?_)
      rw [abs_of_nonneg (by linarith)]
      linarith
  have hd1 : (0 : ℚ) ≤ |v1 - pc.ideal| := abs_nonneg _
  have hsq : |v1 - pc.ideal| ^ 2 < |v2 - pc.ideal| ^ 2 := by nlinarith
  have hM2 : (0 : ℚ) < max (|pc.min - pc.ideal|) (|pc.max - pc.ideal|) ^ 2 := pow_pos hMpos 2
  have hdiv : |v1 - pc.ideal| ^ 2 / max (|pc.min - pc.ideal|) (|pc.max - pc.ideal|) ^ 2 <
      |v2 - pc.ideal| ^ 2 / max (|pc.min - pc.ideal|) (|pc.max - pc.ideal|) ^ 2 :=
    (div_lt_div_iff_of_pos_right hM2).2 hsq
  simp only [div_pow]
  linarith

/-- C4: for every Policy B parameter and every pair of values inside the
parameter's `[min, max]` band, the value strictly closer to the ideal gets a
strictly greater per-parameter score. -/
theorem parameter_score_strict_antitone_in_band :
    ∀ pc ∈ [conditions_temperature, conditions_humidity, conditions_precipitation,
      conditions_solar_radiation],
    ∀ v1 v2 : ℚ, pc.min ≤ v1 → v1 ≤ pc.max → pc.min ≤ v2 → v2 ≤ pc.max →
    |v1 - pc.ideal| < |v2 - pc.ideal| →
    calculate_parameter_score (some v2) pc < calculate_parameter_score (some v1) pc := by
  intro pc hpc v1 v2 h1a h1b h2a h2b hcl
  fin_cases hpc <;>
    exact parameter_score_strict_antitone_core _
      (by norm_num [conditions_temperature, conditions_humidity, conditions_precipitation,
        conditions_solar_radiation])
      (by norm_num [conditions_temperature, conditions_humidity, conditions_precipitation,
        conditions_solar_radiation])
      (by norm_num [conditions_temperature, conditions_humidity, conditions_precipitation,
        conditions_solar_radiation])
      v1 v2 h1a h1b h2a h2b hcl

/-- Witness for C4: temperature 25 (the ideal) against temperature 30 inside
the band `[20,35]`. -/
theorem parameter_score_strict_antitone_in_band_witness :
    calculate_parameter_score (some 30) conditions_temperature <
      calculate_parameter_score (some 25) conditions_temperature :=
  parameter_score_strict_antitone_in_band conditions_temperature
    (List.mem_cons_self _ _) 25 30 (by norm_num [conditions_temperature])
    (by norm_num [conditions_temperature]) (by norm_num [conditions_temperature])
    (by norm_num [conditions_temperature]) (by norm_num [conditions_temperature])

/-- C6: when no usable record remains after required-field filtering, the
normalizer returns the recoverable error value `none` (the Python `None` with
the "No valid data could be processed" message), not a series and not a crash. -/
theorem normalizer_empty_series_error (payload : List (ℤ × RawValues))
    (h : ∀ p ∈ payload, recordComplete (toRecord p) = false) :
    fetch_nasa_power_data payload = none := by
  simp only [fetch_nasa_power_data]
  have hnil : (payload.map toRecord).filter recordComplete = [] := by
    rw [List.filter_eq_nil_iff]
    intro r hr
    obtain ⟨p, hp, rfl⟩ := List.mem_map.1 hr
    simp [h p hp]
  rw [hnil]
  rfl

/-- Witness for C6: a one-record payload whose record is missing `T2M`. -/
theorem normalizer_empty_series_error_witness :
    fetch_nasa_power_data [(0, ⟨none, some 70, some 150, some 5⟩)] = none :=
  normalizer_empty_series_error [(0, ⟨none, some 70, some 150, some 5⟩)] (by decide)

/-- C10: every record of a series returned by the normalizer has all four
parameter values present, so the scorer's absent-value branch (per-parameter
score 0 for `none`) is never taken on normalizer output. -/
theorem normalizer_output_all_fields_present (payload : List (ℤ × RawValues))
    (s : List RiceRecord) (h : fetch_nasa_power_data payload = some s) :
    ∀ r ∈ s, (∃ t, r.temperature = some t) ∧ (∃ hu, r.humidity = some hu) ∧
      (∃ p, r.precipitation = some p) ∧ (∃ sr, r.solar_radiation = some sr) := by
  intro r hr
  simp only [fetch_nasa_power_data] at h
  by_cases he : ((payload.map toRecord).filter recordComplete).isEmpty
  · rw [if_pos he] at h
    exact Option.noConfusion h
  · rw [if_neg he] at h
    cases Option.some.inj h
    have hc := List.of_mem_filter hr
    simp only [recordComplete, Bool.and_eq_true, Option.isSome_iff_exists] at hc
    tauto

/-- Witness for C10: a complete one-record payload. -/
theorem normalizer_output_all_fields_present_witness :
    (∃ t, (toRecord (0, ⟨some 25, some 70, some 150, some 5⟩)).temperature = some t) ∧
    (∃ hu, (toRecord (0, ⟨some 25, some 70, some 150, some 5⟩)).humidity = some hu) ∧
    (∃ p, (toRecord (0, ⟨some 25, some 70, some 150, some 5⟩)).precipitation = some p) ∧
    (∃ sr, (toRecord (0, ⟨some 25, some 70, some 150, some 5⟩)).solar_radiation = some sr) :=
  normalizer_output_all_fields_present [(0, ⟨some 25, some 70, some 150, some 5⟩)]
    [toRecord (0, ⟨some 25, some 70, some 150, some 5⟩)] rfl
    (toRecord (0, ⟨some 25, some 70, some 150, some 5⟩)) (List.Mem.head _)

/-- C5 counterexample: a shape-(a) payload with `N = 1` records whose single
record lacks a required value. The claim instance asserts an output series with
`N-1 = 0` records, but `fetch_nasa_power_data` returns the error value `none`
(EmptySeries) instead of any series. -/
theorem required_field_exclusion_counterexample :
    fetch_nasa_power_data [(0, ⟨none, some 70, some 150, some 5⟩)] = none ∧
    ¬∃ s, fetch_nasa_power_data [(0, ⟨none, some 70, some 150, some 5⟩)] = some s ∧
      s.length = 0 := by
  refine ⟨rfl, ?_⟩
  rintro ⟨s, hs, -⟩
  rw [show fetch_nasa_power_data [(0, ⟨none, some 70, some 150, some 5⟩)] = none from rfl] at hs
  exact Option.noConfusion hs

theorem countP_add_countP_not {α : Type} (p : α → Bool) (l : List α) :
    l.countP p + l.countP (fun a => !p a) = l.length := by
  induction l with
  | nil => simp
  | cons x xs ih =>
    by_cases hx : p x = true <;> simp [List.countP_cons, hx] <;> omega

/-- C5 amended: for a shape-(a) payload with `N ≥ 2` date records of which
exactly one lacks a required parameter value, the whole daily record is dropped
and the returned series has exactly `N-1` records (for `N = 1` the normalizer
instead fails with the EmptySeries error). -/
theorem required_field_exclusion_amended (payload : List (ℤ × RawValues))
    (h1 : (payload.map toRecord).countP (fun r => !recordComplete r) = 1)
    (h2 : 2 ≤ payload.length) :
    ∃ s, fetch_nasa_power_data payload = some s ∧ s.length = payload.length - 1 := by
  have hlen : (payload.map toRecord).length = payload.length := List.length_map _ _
  have htot := countP_add_countP_not recordComplete (payload.map toRecord)
  have hfl : ((payload.map toRecord).filter recordComplete).length =
      (payload.map toRecord).countP recordComplete :=
    (List.countP_eq_length_filter _ _).symm
  have hlen2 : ((payload.map toRecord).filter recordComplete).length = payload.length - 1 := by
    omega
  have hne : ¬((payload.map toRecord).filter recordComplete).isEmpty = true := by
    intro he
    rw [List.isEmpty_iff.1 he] at hlen2
    simp at hlen2
    omega
  refine ⟨(payload.map toRecord).filter recordComplete, ?_, hlen2⟩
  simp only [fetch_nasa_power_data]
  rw [if_neg hne]

/-- Witness for the amended C5: two records, the first missing `T2M`. -/
theorem required_field_exclusion_amended_witness :
    ∃ s, fetch_nasa_power_data
      [(0, ⟨none, some 70, some 150, some 5⟩), (1, ⟨some 25, some 70, some 150, some 5⟩)] =
        some s ∧
      s.length =
        ([(0, (⟨none, some 70, some 150, some 5⟩ : RawValues)),
          (1, ⟨some 25, some 70, some 150, some 5⟩)] : List (ℤ × RawValues)).length - 1 :=
  required_field_exclusion_amended
    [(0, ⟨none, some 70, some 150, some 5⟩), (1, ⟨some 25, some 70, some 150, some 5⟩)]
    (by decide) (by decide)

/-- C7: the scoring functions are pure total functions that never fail: Policy
B returns a value in `[0,100]` on every row (with required fields present or
not), an absent parameter contributes a per-parameter score of 0 rather than an
error, and Policy A is likewise bounded on all finite inputs. -/
theorem scorers_total_and_bounded :
    (∀ row : RiceRecord, 0 ≤ calculate_rice_crop_health_score row ∧
      calculate_rice_crop_health_score row ≤ 100) ∧
    (∀ pc : ParamConditions, calculate_parameter_score none pc = 0) ∧
    (∀ temperature rainfall : ℚ, 0 ≤ analyze_rice_crop_health temperature rainfall ∧
      analyze_rice_crop_health temperature rainfall ≤ 100) := by
  refine ⟨calculate_rice_crop_health_score_bounds, fun pc => rfl, ?_⟩
  intro t r
  obtain ⟨ha, hb⟩ := temp_score_bounds t
  obtain ⟨hc, hd⟩ := rain_score_bounds r
  unfold analyze_rice_crop_health
  constructor <;> nlinarith

theorem predict_future_temperatures_length (df : List WeatherRow) :
    (predict_future_temperatures df).length = 30 := by
  simp [predict_future_temperatures]

theorem predict_future_temperatures_get_date (df : List WeatherRow) (i : ℕ)
    (h : i < (predict_future_temperatures df).length) :
    ((predict_future_temperatures df).get ⟨i, h⟩).date =
      dateMaxList (df.map (fun r => r.date)) + ((i + 1 : ℕ) : ℤ) := by
  simp [predict_future_temperatures, List.get_eq_getElem, List.getElem_map, List.getElem_range]

/-- C2: on every nonempty input series the trend projection returns exactly 30
points, the first dated one day after the last observed date
(`df['date'].max()`), and consecutive points dated one day apart. -/
theorem trend_projection_length_and_contiguity (df : List WeatherRow) (hdf : df ≠ []) :
    (predict_future_temperatures df).length = 30 ∧
    (∀ h0 : 0 < (predict_future_temperatures df).length,
      ((predict_future_temperatures df).get ⟨0, h0⟩).date =
        dateMaxList (df.map (fun r => r.date)) + 1) ∧
    (∀ (i : ℕ) (hi : i + 1 < (predict_future_temperatures df).length),
      ((predict_future_temperatures df).get ⟨i + 1, hi⟩).date =
        ((predict_future_temperatures df).get ⟨i, Nat.lt_of_succ_lt hi⟩).date + 1) := by
  refine ⟨predict_future_temperatures_length df, ?_, ?_⟩
  · intro h0
    rw [predict_future_temperatures_get_date]
    norm_num
  · intro i hi
    rw [predict_future_temperatures_get_date, predict_future_temperatures_get_date]
    push_cast
    ring

/-- Witness for C2: the projection of a one-row series has 30 points. -/
theorem trend_projection_length_and_contiguity_witness :
    (predict_future_temperatures [⟨0, 10⟩]).length = 30 :=
  (trend_projection_length_and_contiguity [⟨0, 10⟩] (by simp)).1

theorem foldl_min_le_init (xs : List ℤ) (a : ℤ) : xs.foldl min a ≤ a := by
  induction xs generalizing a with
  | nil => simp
  | cons x xs ih => exact le_trans (ih (min a x)) (min_le_left a x)

theorem foldl_min_le_mem (xs : List ℤ) (a x : ℤ) (hx : x ∈ xs) : xs.foldl min a ≤ x := by
  induction xs generalizing a with
  | nil => cases hx
  | cons y ys ih =>
    cases hx with
    | head => exact le_trans (foldl_min_le_init ys (min a x)) (min_le_right a x)
    | tail _ hx => exact ih (min a y) hx

theorem le_foldl_min (xs : List ℤ) (a c : ℤ) (ha : c ≤ a) (h : ∀ x ∈ xs, c ≤ x) :
    c ≤ xs.foldl min a := by
  induction xs generalizing a with
  | nil => simpa using ha
  | cons x xs ih =>
    exact ih (min a x) (le_min ha (h x (List.Mem.head _)))
      (fun y hy => h y (List.Mem.tail _ hy))

theorem init_le_foldl_max (xs : List ℤ) (a : ℤ) : a ≤ xs.foldl max a := by
  induction xs generalizing a with
  | nil => simp
  | cons x xs ih => exact le_trans (le_max_left a x) (ih (max a x))

theorem mem_le_foldl_max (xs : List ℤ) (a x : ℤ) (hx : x ∈ xs) : x ≤ xs.foldl max a := by
  induction xs generalizing a with
  | nil => cases hx
  | cons y ys ih =>
    cases hx with
    | head => exact le_trans (le_max_right a x) (init_le_foldl_max ys (max a x))
    | tail _ hx => exact ih (max a y) hx

theorem foldl_max_le (xs : List ℤ) (a c : ℤ) (ha : a ≤ c) (h : ∀ x ∈ xs, x ≤ c) :
    xs.foldl max a ≤ c := by
  induction xs generalizing a with
  | nil => simpa using ha
  | cons x xs ih =>
    exact ih (max a x) (max_le ha (h x (List.Mem.head _)))
      (fun y hy => h y (List.Mem.tail _ hy))

theorem dateMinList_le_mem (xs : List ℤ) (x : ℤ) (hx : x ∈ xs) : dateMinList xs ≤ x := by
  cases xs with
  | nil => cases hx
  | cons y ys =>
    cases hx with
    | head => exact foldl_min_le_init ys x
    | tail _ hx => exact foldl_min_le_mem ys y x hx

theorem le_dateMinList (xs : List ℤ) (c : ℤ) (hne : xs ≠ []) (h : ∀ x ∈ xs, c ≤ x) :
    c ≤ dateMinList xs := by
  cases xs with
  | nil => exact absurd rfl hne
  | cons y ys =>
    exact le_foldl_min ys y c (h y (List.Mem.head _)) (fun x hx => h x (List.Mem.tail _ hx))

theorem mem_le_dateMaxList (xs : List ℤ) (x : ℤ) (hx : x ∈ xs) : x ≤ dateMaxList xs := by
  cases xs with
  | nil => cases hx
  | cons y ys =>
    cases hx with
    | head => exact init_le_foldl_max ys x
    | tail _ hx => exact mem_le_foldl_max ys y x hx

theorem dateMaxList_le (xs : List ℤ) (c : ℤ) (hne : xs ≠ []) (h : ∀ x ∈ xs, x ≤ c) :
    dateMaxList xs ≤ c := by
  cases xs with
  | nil => exact absurd rfl hne
  | cons y ys =>
    exact foldl_max_le ys y c (h y (List.Mem.head _)) (fun x hx => h x (List.Mem.tail _ hx))

theorem dateMinList_arith (n : ℕ) (d0 : ℤ) (hn : 1 ≤ n) :
    dateMinList ((List.range n).map (fun i : ℕ => d0 + (i : ℤ))) = d0 := by
  have hne : (List.range n).map (fun i : ℕ => d0 + (i : ℤ)) ≠ [] := by
    intro h
    have hlen := congrArg List.length h
    simp at hlen
    omega
  apply le_antisymm
  · have h0 : d0 + ((0 : ℕ) : ℤ) ∈ (List.range n).map (fun i : ℕ => d0 + (i : ℤ)) :=
      List.mem_map_of_mem _ (List.mem_range.2 (by omega))
    have hle := dateMinList_le_mem _ _ h0
    simpa using hle
  · apply le_dateMinList _ _ hne
    intro x hx
    obtain ⟨i, _, rfl⟩ := List.mem_map.1 hx
    omega

theorem dateMaxList_arith (n : ℕ) (d0 : ℤ) (hn : 1 ≤ n) :
    dateMaxList ((List.range n).map (fun i : ℕ => d0 + (i : ℤ))) = d0 + (n : ℤ) - 1 := by
  obtain ⟨m, rfl⟩ : ∃ m, n = m + 1 := ⟨n - 1, by omega⟩
  have hne : (List.range (m + 1)).map (fun i : ℕ => d0 + (i : ℤ)) ≠ [] := by
    intro h
    have hlen := congrArg List.length h
    simp at hlen
  apply le_antisymm
  · apply dateMaxList_le _ _ hne
    intro x hx
    obtain ⟨i, hi, rfl⟩ := List.mem_map.1 hx
    have hi2 := List.mem_range.1 hi
    push_cast
    omega
  · have hm : d0 + ((m : ℕ) : ℤ) ∈ (List.range (m + 1)).map (fun i : ℕ => d0 + (i : ℤ)) :=
      List.mem_map_of_mem _ (List.mem_range.2 (by omega))
    have hle := mem_le_dateMaxList _ _ hm
    push_cast at hle ⊢
    omega

theorem list_range_map_sum (f : ℕ → ℚ) (n : ℕ) :
    ((List.range n).map f).sum = ∑ i ∈ Finset.range n, f i := by
  induction n with
  | zero => simp
  | succ m ih =>
    rw [List.range_succ, List.map_append, List.sum_append, ih, Finset.sum_range_succ]
    simp

theorem ols_fit_exact_linear (n : ℕ) (hn : 2 ≤ n) (a b : ℚ) :
    olsSlope ((List.range n).map (fun i : ℕ => ((i : ℚ), a * i + b))) = a ∧
    olsIntercept ((List.range n).map (fun i : ℕ => ((i : ℚ), a * i + b))) = b := by
  have hnQ : ((n : ℕ) : ℚ) ≠ 0 := Nat.cast_ne_zero.2 (by omega)
  set pts := (List.range n).map (fun i : ℕ => ((i : ℚ), a * i + b)) with hpts
  have hlen : pts.length = n := by simp [hpts]
  have hfst : pts.map Prod.fst = (List.range n).map (fun i : ℕ => (i : ℚ)) := by
    simp [hpts, List.map_map, Function.comp]
  have hsnd : pts.map Prod.snd = (List.range n).map (fun i : ℕ => a * i + b) := by
    simp [hpts, List.map_map, Function.comp]
  have hxbar : xbar pts = (∑ i ∈ Finset.range n, (i : ℚ)) / n := by
    simp only [xbar]
    rw [hfst, hlen, list_range_map_sum]
  have hybar : ybar pts = a * xbar pts + b := by
    simp only [ybar]
    rw [hsnd, hlen, list_range_map_sum, hxbar]
    rw [Finset.sum_add_distrib, ← Finset.mul_sum, Finset.sum_const, Finset.card_range,
      nsmul_eq_mul]
    field_simp
    ring
  have hsxx : sxx pts = ∑ i ∈ Finset.range n, ((i : ℚ) - xbar pts) ^ 2 := by
    simp only [sxx]
    rw [show pts.map (fun p => (p.1 - xbar pts) ^ 2)
        = (List.range n).map (fun i : ℕ => ((i : ℚ) - xbar pts) ^ 2) by
      simp [hpts, List.map_map, Function.comp]]
    exact list_range_map_sum _ n
  have hsxy : sxy pts = a * sxx pts := by
    simp only [sxy]
    rw [show pts.map (fun p => (p.1 - xbar pts) * (p.2 - ybar pts))
        = (List.range n).map (fun i : ℕ => ((i : ℚ) - xbar pts) * ((a * i + b) - ybar pts)) by
      simp [hpts, List.map_map, Function.comp]]
    rw [list_range_map_sum, hsxx, Finset.mul_sum]
    refine Finset.sum_congr rfl (fun i _ => ?_)
    rw [hybar]
    ring
  have hsxx_ne : sxx pts ≠ 0 := by
    rw [hsxx]
    intro h0
    have hall := (Finset.sum_eq_zero_iff_of_nonneg
      (fun (i : ℕ) _ => sq_nonneg ((i : ℚ) - xbar pts))).1 h0
    have h0q := hall 0 (Finset.mem_range.2 (by omega))
    have h1q := hall 1 (Finset.mem_range.2 (by omega))
    rw [sq_eq_zero_iff, sub_eq_zero] at h0q h1q
    rw [← h0q] at h1q
    norm_num at h1q
  have hslope : olsSlope pts = a := by
    rw [olsSlope, hsxy, mul_div_assoc, div_self hsxx_ne, mul_one]
  refine ⟨hslope, ?_⟩
  rw [olsIntercept, hslope, hybar]
  ring

/-- C8: on a perfectly linear input series `avgTemp[i] = 2*i + 10` (dates one
day apart from `d0`, `n ≥ 2` records) the ordinary-least-squares fit of
`predict_future_temperatures` has slope exactly 2 and intercept exactly 10,
and every projected point continues the same line: the value dated `d` equals
`2*(d - d0) + 10`. -/
theorem linear_fit_sanity (n : ℕ) (d0 : ℤ) (hn : 2 ≤ n) (df : List WeatherRow)
    (hdf : df = (List.range n).map
      (fun i : ℕ => (⟨d0 + (i : ℤ), 2 * (i : ℚ) + 10⟩ : WeatherRow))) :
    olsSlope (trendPoints df) = 2 ∧ olsIntercept (trendPoints df) = 10 ∧
    ∀ fr ∈ predict_future_temperatures df,
      fr.predicted_avg_temperature = 2 * ((fr.date - d0 : ℤ) : ℚ) + 10 := by
  subst hdf
  have hdates : ((List.range n).map
        (fun i : ℕ => (⟨d0 + (i : ℤ), 2 * (i : ℚ) + 10⟩ : WeatherRow))).map
          (fun r => r.date)
      = (List.range n).map (fun i : ℕ => d0 + (i : ℤ)) := by
    simp [List.map_map, Function.comp]
  have hmin : dateMinList (((List.range n).map
        (fun i : ℕ => (⟨d0 + (i : ℤ), 2 * (i : ℚ) + 10⟩ : WeatherRow))).map
          (fun r => r.date)) = d0 := by
    rw [hdates]
    exact dateMinList_arith n d0 (by omega)
  have hmax : dateMaxList (((List.range n).map
        (fun i : ℕ => (⟨d0 + (i : ℤ), 2 * (i : ℚ) + 10⟩ : WeatherRow))).map
          (fun r => r.date)) = d0 + (n : ℤ) - 1 := by
    rw [hdates]
    exact dateMaxList_arith n d0 (by omega)
  have hpts : trendPoints ((List.range n).map
        (fun i : ℕ => (⟨d0 + (i : ℤ), 2 * (i : ℚ) + 10⟩ : WeatherRow)))
      = (List.range n).map (fun i : ℕ => ((i : ℚ), 2 * (i : ℚ) + 10)) := by
    simp only [trendPoints]
    rw [hmin, List.map_map]
    refine List.map_congr_left (fun i hi => ?_)
    dsimp only [Function.comp]
    simp only [Prod.mk.injEq, and_true]
    push_cast
    ring
  obtain ⟨hslope, hinter⟩ := ols_fit_exact_linear n hn 2 10
  refine ⟨by rw [hpts]; exact hslope, by rw [hpts]; exact hinter, ?_⟩
  intro fr hfr
  simp only [predict_future_temperatures] at hfr
  obtain ⟨i, hi, rfl⟩ := List.mem_map.1 hfr
  dsimp only
  rw [hpts, hslope, hinter, hmin, hmax]
  push_cast
  ring

/-- Witness for C8: the two-point series `(0, 10), (1, 12)` fits slope 2. -/
theorem linear_fit_sanity_witness :
    olsSlope (trendPoints ((List.range 2).map
      (fun i : ℕ => (⟨(0 : ℤ) + (i : ℤ), 2 * (i : ℚ) + 10⟩ : WeatherRow)))) = 2 :=
  (linear_fit_sanity 2 0 (by norm_num) _ rfl).1
